import Mathlib

/-!
Shallow embedding of `src/taskmgr.py` (MiHaTsKiYi13/TaskMGR).

The sampling engine is the class `SystemMonitor`: one cycle calls six
adapter methods and merges their results into a dict (the Snapshot).
Each adapter is modelled as a pure function on the raw values returned
by the underlying `psutil` / `GPUtil` calls; a raw input wrapped in
`Except String` models the possibility that the underlying call raises
(`.error msg` is a raised exception, `.ok v` a normal return).
Percent and load values are floats in the source and are modelled as
rationals; byte counts, core counts and pids as naturals.

The consumer-side state (class `SystemDashboard`) is the single mutable
cell `pinned_pid : Option Nat` together with the reconciliation and
command functions `_update_processes`, `_toggle_pinned_process`,
`_kill_pinned_process` and `_kill_process`, modelled as explicit state
passing.
-/

/-- Raw record for one process as yielded by
`psutil.process_iter([pid, name, cpu_percent, memory_info])`
(source line 90).  `name` is an `Option` because `process_iter`
substitutes Python `None` for a field it could not read. -/
structure RawProc where
  pid : Nat
  name : Option String
  cpu_percent : Rat
  rss : Nat
deriving Repr, DecidableEq

/-- One tuple `(pid, name, cpu_percent, rss)` as built by
`SystemMonitor._get_process_data` (source line 89). -/
structure ProcEntry where
  pid : Nat
  name : String
  cpu_percent : Rat
  rss : Nat
deriving Repr, DecidableEq

/-- Python truthiness of `p.info[name]` (source line 91): both `None`
and the empty string are falsy. -/
def nameTruthy : Option String → Bool
  | none => false
  | some s => s ≠ ""

/-- The body of the list comprehension in `_get_process_data`
(source lines 88-91): keep a process only if its name is truthy. -/
def toProcEntry (r : RawProc) : Option ProcEntry :=
  if nameTruthy r.name then some ⟨r.pid, r.name.getD (""), r.cpu_percent, r.rss⟩ else none

/-- Stable insertion step for a sort that is descending in
`cpu_percent`: the new element goes before the first element whose key
is less than or equal to its own, hence after every strictly greater
key and before every equal key that came later in the enumeration.
This reproduces the stable `sorted(..., key=lambda x: x[2],
reverse=True)` of source line 92 (Python sorts are stable, and
`reverse=True` does not reorder equal keys). -/
def insertCpuDesc (x : ProcEntry) : List ProcEntry → List ProcEntry
  | [] => [x]
  | y :: ys => if y.cpu_percent ≤ x.cpu_percent then x :: y :: ys else y :: insertCpuDesc x ys

/-- Stable descending sort on `cpu_percent`, the semantics of
`sorted(..., key=lambda x: x[2], reverse=True)` at source line 92. -/
def sortCpuDesc : List ProcEntry → List ProcEntry
  | [] => []
  | x :: xs => insertCpuDesc x (sortCpuDesc xs)

/-- Source method `SystemMonitor._get_process_data` (source lines 87-92): filter out
processes with falsy names, sort by cpu percent descending (stable),
then truncate to the first 100 entries. -/
def _get_process_data (procs : List RawProc) : List ProcEntry :=
  (sortCpuDesc (procs.filterMap toProcEntry)).take 100

/-- Result of `psutil.virtual_memory()` (source line 75). -/
structure VirtualMemory where
  total : Nat
  used : Nat
  percent : Rat
deriving Repr, DecidableEq

/-- The memory dict built at source line 76. -/
structure MemData where
  total : Nat
  used : Nat
  percent : Rat
deriving Repr, DecidableEq

/-- Source method `SystemMonitor._get_memory_data` (source lines 74-76): a direct
pass-through of the `psutil.virtual_memory()` fields. -/
def _get_memory_data (mem : VirtualMemory) : MemData :=
  { total := mem.total, used := mem.used, percent := mem.percent }

/-- One element of `psutil.disk_partitions()` (source line 85). -/
structure DiskPartition where
  device : String
  mountpoint : String
deriving Repr, DecidableEq

/-- Result of `psutil.disk_usage(mountpoint)` (source line 82). -/
structure DiskUsage where
  total : Nat
  used : Nat
  percent : Rat
deriving Repr, DecidableEq

/-- One disk dict built at source lines 79-84. -/
structure DiskEntry where
  device : String
  mount : String
  total : Nat
  used : Nat
  percent : Rat
deriving Repr, DecidableEq

/-- The expression `part.device.split(slash)[-1]` at source line 80: the component
after the last slash. -/
def lastPathComponent (s : String) : String :=
  (s.splitOn ("/")).getLastD s

/-- Source method `SystemMonitor._get_disk_data` (source lines 78-85): one entry per
partition with a truthy (non-empty) mountpoint, carrying its usage
numbers through unchanged.  The raw input pairs each partition with
the `disk_usage` result for its mountpoint. -/
def _get_disk_data (parts : List (DiskPartition × DiskUsage)) : List DiskEntry :=
  (parts.filter fun p => p.1.mountpoint ≠ "").map fun p =>
    { device := lastPathComponent p.1.device, mount := p.1.mountpoint,
      total := p.2.total, used := p.2.used, percent := p.2.percent }

/-- One device from `GPUtil.getGPUs()` (source line 72). -/
structure GpuRaw where
  name : String
  memoryUsed : Rat
  memoryTotal : Rat
  load : Rat
  temperature : Rat
deriving Repr, DecidableEq

/-- One gpu dict built at source lines 67-72.  The source renders the
two memory numbers into one display string; the numbers themselves are
kept here. -/
structure GpuEntry where
  name : String
  memoryUsed : Rat
  memoryTotal : Rat
  load : Rat
  temperature : Rat
deriving Repr, DecidableEq

/-- Source method `SystemMonitor._get_gpu_data` (source lines 66-72): one entry per
detected device, with `load` scaled by 100.  There is no exception
handler in this method. -/
def _get_gpu_data (gpus : List GpuRaw) : List GpuEntry :=
  gpus.map fun g =>
    { name := g.name, memoryUsed := g.memoryUsed, memoryTotal := g.memoryTotal,
      load := g.load * 100, temperature := g.temperature }

/-- Result of `psutil.cpu_freq()` when it is not `None`
(source lines 36, 40). -/
structure CpuFreq where
  current : Rat
deriving Repr, DecidableEq

/-- Raw inputs of `SystemMonitor._get_cpu_data` (source lines 35-43).
`model` and `temp` are the results of `_get_cpu_model` and
`_get_cpu_temp`; both of those helpers catch their own exceptions
internally (source lines 45-64), so they are carried as plain values
(`temp` is an `Option` because on a platform without a thermal file
`_get_cpu_temp` falls off its end and returns Python `None`). -/
structure CpuRaw where
  freq : Option CpuFreq
  model : String
  temp : Option String
  cores_physical : Nat
  cores_logical : Nat
  load : Rat
deriving Repr, DecidableEq

/-- The cpu dict built at source lines 37-43.  The source renders
frequency and core counts into display strings; the numbers are kept.
`frequency = none` is rendered as the string N/A at line 40. -/
structure CpuData where
  model : String
  cores_physical : Nat
  cores_logical : Nat
  frequency : Option Rat
  temp : Option String
  load : Rat
deriving Repr, DecidableEq

/-- Source method `SystemMonitor._get_cpu_data` (source lines 35-43). -/
def _get_cpu_data (c : CpuRaw) : CpuData :=
  { model := c.model, cores_physical := c.cores_physical,
    cores_logical := c.cores_logical,
    frequency := c.freq.map fun f => f.current / 1000,
    temp := c.temp, load := c.load }

/-- Result of `psutil.net_io_counters()` (source line 95): one global,
system-wide pair of counters. -/
structure NetIOCounters where
  bytes_sent : Nat
  bytes_recv : Nat
deriving Repr, DecidableEq

/-- Raw inputs of `SystemMonitor._get_network_data` (source lines
95-97): the global io counters, the address map (interface name paired
with its address strings, in dict iteration order) and the stats map
(interface name paired with its `isup` flag). -/
structure NetRaw where
  io : NetIOCounters
  addrs : List (String × List String)
  stats : List (String × Bool)
deriving Repr, DecidableEq

/-- One interface entry of the dict built at source lines 99-108. -/
structure NetIfaceEntry where
  iface : String
  addresses : List String
  bytes_sent : Nat
  bytes_recv : Nat
  is_up : Bool
deriving Repr, DecidableEq

/-- Source method `SystemMonitor._get_network_data` (source lines 94-109): one entry
per interface of the address map; every entry copies the same global
`bytes_sent` / `bytes_recv` counters, and `is_up` falls back to
`false` when the interface is missing from the stats map
(source line 105). -/
def _get_network_data (n : NetRaw) : List NetIfaceEntry :=
  n.addrs.map fun a =>
    { iface := a.1, addresses := a.2,
      bytes_sent := n.io.bytes_sent, bytes_recv := n.io.bytes_recv,
      is_up := match n.stats.lookup a.1 with | some b => b | none => false }

/-- The raw OS readings available to one sampling cycle.  A field
wrapped in `.error msg` models the underlying library call raising an
exception with that message when the adapter runs. -/
structure World where
  cpuRaw : Except String CpuRaw
  gpuRaw : Except String (List GpuRaw)
  memRaw : Except String VirtualMemory
  diskRaw : Except String (List (DiskPartition × DiskUsage))
  procRaw : Except String (List RawProc)
  netRaw : Except String NetRaw

/-- The data dict built at source lines 22-29. -/
structure Snapshot where
  cpu : CpuData
  gpu : List GpuEntry
  memory : MemData
  disks : List DiskEntry
  processes : List ProcEntry
  network : List NetIfaceEntry
deriving Repr, DecidableEq

/-- One iteration of the `while True` body of `SystemMonitor.run`
(source lines 20-33) up to the emit: the dict literal evaluates the six
adapters in order cpu, gpu, memory, disk, processes, network inside a
single `try`, so the first adapter that raises aborts the whole cycle
and its exception propagates to the `except` at line 32; only when all
six succeed is a snapshot produced. -/
def runCycle (w : World) : Except String Snapshot :=
  match w.cpuRaw, w.gpuRaw, w.memRaw, w.diskRaw, w.procRaw, w.netRaw with
  | .ok c, .ok g, .ok m, .ok d, .ok p, .ok n =>
      .ok { cpu := _get_cpu_data c, gpu := _get_gpu_data g,
            memory := _get_memory_data m, disks := _get_disk_data d,
            processes := _get_process_data p, network := _get_network_data n }
  | .error e, _, _, _, _, _ => .error e
  | _, .error e, _, _, _, _ => .error e
  | _, _, .error e, _, _, _ => .error e
  | _, _, _, .error e, _, _ => .error e
  | _, _, _, _, .error e, _ => .error e
  | _, _, _, _, _, .error e => .error e

/-- What one loop iteration does downstream: either
`data_updated.emit(data)` (source line 30) or the diagnostic print in
the `except` branch (source line 33). -/
inductive LoopEvent
  | emitted (s : Snapshot)
  | logged (err : String)

/-- The observable outcome of one iteration of `SystemMonitor.run`:
the `try` either emits the snapshot or the `except Exception` branch
catches the exception and prints it (source lines 21-33). -/
def cycleEvent (w : World) : LoopEvent :=
  match runCycle w with
  | .ok s => .emitted s
  | .error e => .logged e

/-- A finite prefix of the infinite `while True` loop of
`SystemMonitor.run` (source lines 20-33), driven by the stream of raw
OS readings: every iteration produces its event and the loop proceeds
to the next iteration unconditionally. -/
def runLoop (ws : List World) : List LoopEvent := ws.map cycleEvent

/-- Python truthiness of `self.pinned_pid` in `if self.pinned_pid:`
(source lines 144, 382): Python `None` and the pid 0 are both falsy. -/
def pinTruthy : Option Nat → Bool
  | none => false
  | some p => p ≠ 0

/-- The fresh per-process readings taken at source line 385 when
`psutil.Process(self.pinned_pid)` succeeds: `p.name()`,
`p.cpu_percent()`, `p.memory_info().rss`. -/
structure LiveStats where
  name : String
  cpu_percent : Rat
  rss : Nat
deriving Repr, DecidableEq

/-- Source method `SystemDashboard._update_processes` reconciliation prologue
(source lines 381-388), as a function of the pinned pid, the outcome
of the live `psutil.Process` query for it (`none` models any of the
calls at lines 384-385 raising, swallowed by the bare `except` at
line 387), and the incoming process list.  Returns the new pin cell
and the process list handed on to the display code.  Note the code
never searches the incoming list: on a successful live query it
prepends a fresh tuple `(p, name, cpu, rss)` and filters the pid from
the rest (line 386); on a failed query it clears the pin and leaves
the list untouched (line 388). -/
def _update_processes : Option Nat → Option LiveStats → List ProcEntry →
    Option Nat × List ProcEntry
  | some p, live, procs =>
    if p = 0 then (some p, procs)
    else
      match live with
      | some st =>
          (some p, ⟨p, st.name, st.cpu_percent, st.rss⟩ ::
            procs.filter fun q => q.pid ≠ p)
      | none => (none, procs)
  | none, _, procs => (none, procs)

/-- Source method `SystemDashboard._toggle_pinned_process` (source lines 426-429):
`self.pinned_pid = pid if self.pinned_pid != pid else None`.  In
Python, `None != pid` is true, so the comparison coincides with
inequality on `Option Nat`. -/
def _toggle_pinned_process (pinned : Option Nat) (pid : Nat) : Option Nat :=
  if pinned ≠ some pid then some pid else none

/-- The user-visible outcome of a kill command: the QMessageBox shown
(information, critical error, or warning), or nothing at all. -/
inductive KillMessage
  | info (text : String)
  | err (text : String)
  | warn (text : String)
  | silent
deriving Repr, DecidableEq

/-- Source method `SystemDashboard._kill_pinned_process` (source lines 143-159), as
a function of the pin cell, the answer to the confirmation dialog, and
the outcome of `psutil.Process(pid).terminate()` (`.error e` models a
raised exception with message `e`, caught at line 156).  On success
the pin is cleared (line 153); on failure it is left unchanged and a
critical message is shown; with a falsy pin only a warning is shown. -/
def _kill_pinned_process (pinned : Option Nat) (confirm : Bool)
    (terminateResult : Except String Unit) : Option Nat × KillMessage :=
  if pinTruthy pinned then
    if confirm then
      match terminateResult with
      | .ok _ => (none, .info ("Pinned process terminated"))
      | .error e => (pinned, .err e)
    else (pinned, .silent)
  else (pinned, .warn ("No pinned process selected"))

/-- Source method `SystemDashboard._kill_process` (source lines 431-438), as a
function of the pin cell, the pid of the currently selected table row
(`none` models `currentRow < 0`), and the outcome of
`psutil.Process(pid).terminate()`.  The pin cell is never touched by
this path; success and failure only differ in the message shown. -/
def _kill_process (pinned : Option Nat) (selectedPid : Option Nat)
    (terminateResult : Except String Unit) : Option Nat × KillMessage :=
  match selectedPid with
  | some _ =>
    match terminateResult with
    | .ok _ => (pinned, .info ("terminated"))
    | .error e => (pinned, .err e)
  | none => (pinned, .silent)

/-- The ordering the spec asserts for the process list: cpu percent
strictly descending, with ties broken by pid ascending. -/
def specProcessOrder (a b : ProcEntry) : Prop :=
  b.cpu_percent < a.cpu_percent ∨ (a.cpu_percent = b.cpu_percent ∧ a.pid < b.pid)

instance : DecidableRel specProcessOrder := fun _a _b =>
  inferInstanceAs (Decidable (_ ∨ _ ∧ _))

/-- The ordering the code actually establishes: cpu percent
non-increasing. -/
def cpuDescOrder (a b : ProcEntry) : Prop :=
  b.cpu_percent ≤ a.cpu_percent

instance : DecidableRel cpuDescOrder := fun _a _b =>
  inferInstanceAs (Decidable (_ ≤ _))

/-! Helper lemmas about the stable descending insertion sort. -/

theorem perm_insertCpuDesc (x : ProcEntry) (l : List ProcEntry) :
    List.Perm (insertCpuDesc x l) (x :: l) := by
  induction l with
  | nil => rfl
  | cons y ys ih =>
    unfold insertCpuDesc
    split
    · exact List.Perm.refl _
    · exact (List.Perm.cons y ih).trans (List.Perm.swap x y ys)

theorem perm_sortCpuDesc (l : List ProcEntry) : List.Perm (sortCpuDesc l) l := by
  induction l with
  | nil => rfl
  | cons x xs ih =>
    exact (perm_insertCpuDesc x (sortCpuDesc xs)).trans (List.Perm.cons x ih)

theorem mem_insertCpuDesc {x z : ProcEntry} {l : List ProcEntry} :
    z ∈ insertCpuDesc x l ↔ z = x ∨ z ∈ l := by
  induction l with
  | nil => simp [insertCpuDesc]
  | cons y ys ih =>
    unfold insertCpuDesc
    split
    · simp [List.mem_cons]
    · rw [List.mem_cons, ih, List.mem_cons]
      tauto

theorem pairwise_insertCpuDesc {x : ProcEntry} {l : List ProcEntry}
    (h : l.Pairwise cpuDescOrder) :
    (insertCpuDesc x l).Pairwise cpuDescOrder := by
  induction l with
  | nil => simp [insertCpuDesc]
  | cons y ys ih =>
    rw [List.pairwise_cons] at h
    obtain ⟨hy, hys⟩ := h
    unfold insertCpuDesc
    split
    case isTrue hle =>
      rw [List.pairwise_cons]
      refine ⟨?_, List.pairwise_cons.mpr ⟨hy, hys⟩⟩
      intro z hz
      rcases List.mem_cons.mp hz with rfl | hz2
      · exact hle
      · exact le_trans (hy z hz2) hle
    case isFalse hgt =>
      rw [List.pairwise_cons]
      refine ⟨?_, ih hys⟩
      intro z hz
      rcases mem_insertCpuDesc.mp hz with rfl | hz2
      · exact le_of_not_le hgt
      · exact hy z hz2

theorem pairwise_sortCpuDesc (l : List ProcEntry) :
    (sortCpuDesc l).Pairwise cpuDescOrder := by
  induction l with
  | nil => simp [sortCpuDesc]
  | cons x xs ih => exact pairwise_insertCpuDesc ih

/-! Helper lemmas about the process filter. -/

theorem toProcEntry_pid {r : RawProc} {e : ProcEntry} (h : toProcEntry r = some e) :
    e.pid = r.pid := by
  unfold toProcEntry at h
  split at h
  · injection h with h2
    rw [← h2]
  · exact absurd h (by simp)

theorem toProcEntry_name {r : RawProc} {e : ProcEntry} (h : toProcEntry r = some e) :
    e.name ≠ "" := by
  unfold toProcEntry at h
  split at h
  case isTrue ht =>
    injection h with h2
    rw [← h2]
    cases hn : r.name with
    | none => rw [hn] at ht; simp [nameTruthy] at ht
    | some s =>
      rw [hn] at ht
      simp [nameTruthy] at ht
      simpa using ht
  case isFalse => exact absurd h (by simp)

theorem pid_filterMap_sublist (procs : List RawProc) :
    ((procs.filterMap toProcEntry).map ProcEntry.pid).Sublist
      (procs.map RawProc.pid) := by
  induction procs with
  | nil => simp
  | cons r rs ih =>
    cases he : toProcEntry r with
    | none =>
      rw [List.filterMap_cons_none he, List.map_cons]
      exact ih.cons _
    | some e =>
      rw [List.filterMap_cons_some he, List.map_cons, List.map_cons,
        toProcEntry_pid he]
      exact ih.cons₂ _

/-! Inversion of a successful cycle. -/

theorem runCycle_ok {w : World} {s : Snapshot} (h : runCycle w = .ok s) :
    ∃ c g m d p n, w.cpuRaw = .ok c ∧ w.gpuRaw = .ok g ∧ w.memRaw = .ok m ∧
      w.diskRaw = .ok d ∧ w.procRaw = .ok p ∧ w.netRaw = .ok n ∧
      s = { cpu := _get_cpu_data c, gpu := _get_gpu_data g,
            memory := _get_memory_data m, disks := _get_disk_data d,
            processes := _get_process_data p, network := _get_network_data n } := by
  unfold runCycle at h
  cases hc : w.cpuRaw <;> rw [hc] at h <;>
    cases hg : w.gpuRaw <;> rw [hg] at h <;>
      cases hm : w.memRaw <;> rw [hm] at h <;>
        cases hd : w.diskRaw <;> rw [hd] at h <;>
          cases hp : w.procRaw <;> rw [hp] at h <;>
            cases hn : w.netRaw <;> rw [hn] at h <;>
              first
                | exact Except.noConfusion h
                | (rename_i c g m d p n
                   exact ⟨c, g, m, d, p, n, rfl, rfl, rfl, rfl, rfl, rfl,
                     (Except.ok.inj h).symm⟩)

/-! Shared concrete inputs used by witnesses and counterexamples. -/

/-- A cpu reading with every underlying call succeeding. -/
def okCpuRaw : CpuRaw :=
  { freq := none, model := "m", temp := none,
    cores_physical := 1, cores_logical := 1, load := 0 }

/-- A memory reading with every underlying call succeeding. -/
def okMemRaw : VirtualMemory := { total := 100, used := 40, percent := 40 }

/-- A network reading with every underlying call succeeding. -/
def okNetRaw : NetRaw := { io := ⟨0, 0⟩, addrs := [], stats := [] }

/-- One cycle in which all six adapters succeed on minimal data. -/
def baseWorld : World :=
  { cpuRaw := .ok okCpuRaw, gpuRaw := .ok [], memRaw := .ok okMemRaw,
    diskRaw := .ok [], procRaw := .ok [], netRaw := .ok okNetRaw }

/-- A cycle whose gpu adapter raises (for instance a permission error
inside GPUtil) while every other adapter succeeds. -/
def gpuFailWorld : World :=
  { baseWorld with gpuRaw := .error ("permission denied") }

/-- Claim C1 is false as stated: when the gpu adapter fails, the cycle
produces no snapshot at all.  There is no value in which the other
five fields are populated and the gpu field holds a sentinel — the
dict construction at source lines 22-29 sits in a single try block, so
the first adapter that raises aborts the whole cycle. -/
theorem gpu_failure_aborts_cycle : (runCycle gpuFailWorld).isOk = false := rfl

/-- Claim C1 (amended): a cycle produces a complete snapshot exactly
when all six adapters succeed; if any adapter raises, the cycle is
aborted with that exception and produces no snapshot, and the
exception is caught by the loop, which logs it as a diagnostic (the
cycle-level catch at source lines 32-33) — only the cpu model and
temperature sub-readers recover locally with sentinel values. -/
theorem snapshot_iff_all_adapters_ok (w : World) :
    ((runCycle w).isOk = (w.cpuRaw.isOk && w.gpuRaw.isOk && w.memRaw.isOk &&
        w.diskRaw.isOk && w.procRaw.isOk && w.netRaw.isOk)) ∧
      ∀ e, runCycle w = Except.error e → cycleEvent w = LoopEvent.logged e := by
  constructor
  · obtain ⟨c, g, m, d, p, n⟩ := w
    cases c <;> cases g <;> cases m <;> cases d <;> cases p <;> cases n <;> rfl
  · intro e he
    unfold cycleEvent
    rw [he]

theorem snapshot_iff_all_adapters_ok_witness :
    cycleEvent gpuFailWorld = LoopEvent.logged ("permission denied") :=
  (snapshot_iff_all_adapters_ok gpuFailWorld).2 ("permission denied") rfl

/-- A cycle whose cpu adapter raises while every other succeeds. -/
def cpuFailWorld : World :=
  { baseWorld with cpuRaw := .error ("sensor fault") }

/-- Claim C7: every iteration of the sampling loop yields exactly one
event; an iteration whose builder raises yields a logged diagnostic,
and every iteration is processed regardless of earlier failures — the
loop never terminates because one cycle failed. -/
theorem loop_logs_and_continues (ws : List World) (i : Nat) (h : i < ws.length) :
    (runLoop ws).length = ws.length ∧
      (runLoop ws)[i]? = some (cycleEvent ws[i]) ∧
      ∀ e, runCycle ws[i] = Except.error e →
        (runLoop ws)[i]? = some (LoopEvent.logged e) := by
  refine ⟨by simp [runLoop], ?_, ?_⟩
  · rw [runLoop, List.getElem?_map, List.getElem?_eq_getElem h]
    rfl
  · intro e he
    rw [runLoop, List.getElem?_map, List.getElem?_eq_getElem h]
    simp [cycleEvent, he]

theorem loop_logs_and_continues_witness :
    (runLoop [cpuFailWorld, baseWorld]).length = 2 ∧
      (runLoop [cpuFailWorld, baseWorld])[0]? =
        some (LoopEvent.logged ("sensor fault")) ∧
      (runLoop [cpuFailWorld, baseWorld])[1]? = some (cycleEvent baseWorld) :=
  ⟨(loop_logs_and_continues [cpuFailWorld, baseWorld] 0 (by decide)).1,
   (loop_logs_and_continues [cpuFailWorld, baseWorld] 0 (by decide)).2.2
     ("sensor fault") rfl,
   (loop_logs_and_continues [cpuFailWorld, baseWorld] 1 (by decide)).2.1⟩

/-- Claim C3 is false as stated: with pid 42 pinned and a process list
containing no entry with pid 42, the pin is nevertheless retained when
the live psutil query for pid 42 still succeeds (the process is alive
but was filtered or truncated out of the list) — the reconciliation at
source lines 382-388 consults the live query, never the list. -/
theorem pin_kept_when_absent_from_list :
    ¬ ((∀ e ∈ ([] : List ProcEntry), e.pid ≠ 42) →
       (_update_processes (some 42) (some ⟨"x", 0, 0⟩) []).1 = none) := by
  decide

/-- Claim C3 (amended): when a pinned pid p (p nonzero) has its live
psutil.Process query fail — in particular because the process has
exited — the reconciliation clears the pin to none and passes the
process list through unchanged, and no error escapes (the bare except
at source line 387 absorbs the failure).  Absence from the process
list itself is neither consulted nor sufficient to clear the pin. -/
theorem pin_cleared_on_failed_live_query (p : Nat) (procs : List ProcEntry)
    (hp : p ≠ 0) :
    _update_processes (some p) none procs = (none, procs) := by
  unfold _update_processes
  simp [hp]

theorem pin_cleared_on_failed_live_query_witness :
    _update_processes (some 42) none [⟨7, "a", 1, 0⟩] = (none, [⟨7, "a", 1, 0⟩]) :=
  pin_cleared_on_failed_live_query 42 [⟨7, "a", 1, 0⟩] (by decide)

/-- Claim C4 is false as stated: starting from a pinned pid 3, two
successive togglePin(7) calls end with no pin at all, not with the
original pid 3 (the first call moves the pin to 7, the second clears
it). -/
theorem toggle_twice_not_identity :
    ¬ (_toggle_pinned_process (_toggle_pinned_process (some 3) 7) 7 = some 3) := by
  decide

/-- Claim C4 (amended): two successive togglePin(p) calls restore the
original pin state exactly when that state was none or was already p;
when a different pid was pinned, the two calls leave the pin cleared. -/
theorem toggle_twice_characterized (s : Option Nat) (p : Nat) :
    _toggle_pinned_process (_toggle_pinned_process s p) p =
      if s = none ∨ s = some p then s else none := by
  rcases s with _ | q
  · simp [_toggle_pinned_process]
  · by_cases h : q = p
    · subst h
      simp [_toggle_pinned_process]
    · simp [_toggle_pinned_process, h]

/-- The process list used by the claim C5 counterexample: pid 42
occurs, but not in first position. -/
def c5procs : List ProcEntry := [⟨1, "a", 5, 0⟩, ⟨42, "b", 1, 0⟩]

/-- Claim C5 is false as stated: pid 42 is pinned and present in the
process list, but the live query for it fails (the process exited
after the bulk enumeration), so the reconciliation clears the pin and
returns the list unchanged — the pid 42 entry stays in second
position instead of being moved to the front. -/
theorem pinned_not_fronted_on_failed_query :
    ¬ ((∃ e ∈ c5procs, e.pid = 42) →
       (_update_processes (some 42) none c5procs).2.head?.map ProcEntry.pid
          = some 42) := by
  decide

/-- Claim C5 (amended): when a pinned pid p (p nonzero) has a
successful live query, the reconciled list places the freshly queried
entry for p first, every entry after it has a pid different from p,
and the pin is kept; whether p occurred in the incoming list is
irrelevant (the prepended entry carries the freshly sampled stats,
not the ones from the bulk enumeration). -/
theorem pinned_entry_fronted_on_live_query (p : Nat) (st : LiveStats)
    (procs : List ProcEntry) (hp : p ≠ 0) :
    (_update_processes (some p) (some st) procs).1 = some p ∧
      (_update_processes (some p) (some st) procs).2.head? =
        some ⟨p, st.name, st.cpu_percent, st.rss⟩ ∧
      ∀ e ∈ (_update_processes (some p) (some st) procs).2.tail, e.pid ≠ p := by
  unfold _update_processes
  simp [hp]

theorem pinned_entry_fronted_on_live_query_witness :
    (_update_processes (some 42) (some ⟨"b", 2, 3⟩) c5procs).1 = some 42 ∧
      (_update_processes (some 42) (some ⟨"b", 2, 3⟩) c5procs).2.head? =
        some ⟨42, "b", 2, 3⟩ ∧
      ∀ e ∈ (_update_processes (some 42) (some ⟨"b", 2, 3⟩) c5procs).2.tail,
        e.pid ≠ 42 :=
  pinned_entry_fronted_on_live_query 42 ⟨"b", 2, 3⟩ c5procs (by decide)

/-- Claim C6 is false as stated: with pid 5 pinned, a successful
terminate of pid 5 through the generic row terminate path (source
lines 431-438) leaves the pin cell untouched — it still holds 5
afterwards; the pin is only cleared later by reconciliation. -/
theorem generic_kill_keeps_pin :
    ¬ ((_kill_process (some 5) (some 5) (Except.ok ())).1 = none) := by
  decide

/-- Claim C6 (amended): both terminate paths are total and report a
typed message rather than an unhandled fault; the dedicated pinned
terminate command clears the pin on success and leaves it unchanged on
failure (atomic on error); the generic terminate path never modifies
the pin cell, even when the terminated pid is the pinned one — that
pin is only cleared by a later reconciliation. -/
theorem kill_paths_pin_behavior (pinned : Option Nat) (confirm : Bool)
    (term : Except String Unit) (sel : Option Nat) :
    (pinTruthy pinned = true → confirm = true → term = Except.ok () →
      _kill_pinned_process pinned confirm term =
        (none, KillMessage.info ("Pinned process terminated"))) ∧
    (pinTruthy pinned = true → confirm = true → ∀ e, term = Except.error e →
      _kill_pinned_process pinned confirm term = (pinned, KillMessage.err e)) ∧
    (_kill_process pinned sel term).1 = pinned := by
  refine ⟨?_, ?_, ?_⟩
  · intro h1 h2 h3
    subst h3
    simp [_kill_pinned_process, h1, h2]
  · intro h1 h2 e h3
    subst h3
    simp [_kill_pinned_process, h1, h2]
  · rcases sel with _ | q
    · rfl
    · rcases term with e | u <;> rfl

theorem kill_paths_pin_behavior_witness :
    _kill_pinned_process (some 5) true (Except.ok ()) =
        (none, KillMessage.info ("Pinned process terminated")) ∧
      (_kill_process (some 5) (some 9) (Except.ok ())).1 = some 5 :=
  ⟨(kill_paths_pin_behavior (some 5) true (Except.ok ()) (some 9)).1
      (by decide) rfl rfl,
   (kill_paths_pin_behavior (some 5) true (Except.ok ()) (some 9)).2.2⟩

/-! Claim C2. -/

/-- Two enumerated processes with equal cpu percent, yielded with the
larger pid first. -/
def c2Input : List RawProc := [⟨5, some ("a"), 1, 0⟩, ⟨3, some ("b"), 1, 0⟩]

/-- Claim C2 is false in its tiebreak part: two processes with equal
cpu percent and pids 5 and 3, enumerated in that order, are kept in
enumeration order by the stable sort at source line 92 (whose key is
the cpu percent alone), so the resulting list is not ordered with ties
broken by pid ascending. -/
theorem process_order_tiebreak_fails :
    ¬ (_get_process_data c2Input).Pairwise specProcessOrder := by
  decide

/-- A cycle whose process enumeration yields `c2Input`. -/
def c2World : World := { baseWorld with procRaw := .ok c2Input }

/-- The snapshot produced by `c2World`. -/
def c2Snap : Snapshot :=
  { cpu := _get_cpu_data okCpuRaw, gpu := _get_gpu_data [],
    memory := _get_memory_data okMemRaw, disks := _get_disk_data [],
    processes := _get_process_data c2Input, network := _get_network_data okNetRaw }

/-- Claim C2 (amended): in every produced snapshot the process list is
sorted by cpu percent descending — ties keep the enumeration order of
the process iterator (the sort is stable; there is no pid tiebreak) —
its length is at most 100 with truncation applied after sorting, and
its pids are unique whenever the underlying enumeration yielded unique
pids (which psutil guarantees per iteration). -/
theorem process_list_sorted_bounded_nodup (w : World) (s : Snapshot)
    (h : runCycle w = Except.ok s) :
    s.processes.Pairwise cpuDescOrder ∧ s.processes.length ≤ 100 ∧
      ∀ rs, w.procRaw = Except.ok rs → (rs.map RawProc.pid).Nodup →
        (s.processes.map ProcEntry.pid).Nodup := by
  obtain ⟨c, g, m, d, p, n, hc, hg, hm, hd, hp, hn, rfl⟩ := runCycle_ok h
  refine ⟨?_, ?_, ?_⟩
  · exact List.Pairwise.sublist (List.take_sublist 100 _) (pairwise_sortCpuDesc _)
  · exact List.length_take_le 100 _
  · intro rs hrs hnd
    rw [hp] at hrs
    injection hrs with h2
    subst h2
    have h1 : ((p.filterMap toProcEntry).map ProcEntry.pid).Nodup :=
      List.Nodup.sublist (pid_filterMap_sublist p) hnd
    have h2 : ((sortCpuDesc (p.filterMap toProcEntry)).map ProcEntry.pid).Nodup :=
      ((perm_sortCpuDesc (p.filterMap toProcEntry)).map ProcEntry.pid).nodup_iff.mpr h1
    exact List.Nodup.sublist ((List.take_sublist 100 _).map ProcEntry.pid) h2

theorem process_list_sorted_bounded_nodup_witness :
    c2Snap.processes.Pairwise cpuDescOrder ∧ c2Snap.processes.length ≤ 100 ∧
      (c2Snap.processes.map ProcEntry.pid).Nodup :=
  ⟨(process_list_sorted_bounded_nodup c2World c2Snap rfl).1,
   (process_list_sorted_bounded_nodup c2World c2Snap rfl).2.1,
   (process_list_sorted_bounded_nodup c2World c2Snap rfl).2.2 c2Input rfl
     (by decide)⟩

/-! Claim C8. -/

/-- A cycle with one mounted partition. -/
def c8World : World :=
  { baseWorld with diskRaw := .ok [(⟨"sda1", "/"⟩, ⟨500, 200, 40⟩)] }

/-- The snapshot produced by `c8World`. -/
def c8Snap : Snapshot :=
  { cpu := _get_cpu_data okCpuRaw, gpu := _get_gpu_data [],
    memory := _get_memory_data okMemRaw,
    disks := _get_disk_data [(⟨"sda1", "/"⟩, ⟨500, 200, 40⟩)],
    processes := _get_process_data [], network := _get_network_data okNetRaw }

/-- Claim C8: the builder copies the memory and per-partition byte
counts through unchanged (source lines 74-85), so every produced
snapshot satisfies used ≤ total for memory and for every disk entry,
given that the underlying psutil readings satisfy that bound (the
documented invariant of the black-box OS providers). -/
theorem usage_bounds_preserved (w : World) (s : Snapshot)
    (h : runCycle w = Except.ok s)
    (hmem : ∀ m, w.memRaw = Except.ok m → m.used ≤ m.total)
    (hdisk : ∀ ps, w.diskRaw = Except.ok ps → ∀ pd ∈ ps, pd.2.used ≤ pd.2.total) :
    s.memory.used ≤ s.memory.total ∧ ∀ d ∈ s.disks, d.used ≤ d.total := by
  obtain ⟨c, g, m, d, p, n, hc, hg, hm, hd, hp, hn, rfl⟩ := runCycle_ok h
  constructor
  · exact hmem m hm
  · intro de hde
    simp only [_get_disk_data, List.mem_map, List.mem_filter] at hde
    obtain ⟨pd, ⟨hpd, _⟩, heq⟩ := hde
    rw [← heq]
    exact hdisk d hd pd hpd

/-- The single disk entry of `c8Snap`. -/
def c8Disk : DiskEntry :=
  { device := lastPathComponent "sda1", mount := "/", total := 500,
    used := 200, percent := 40 }

theorem usage_bounds_preserved_witness :
    c8Snap.memory.used ≤ c8Snap.memory.total ∧ c8Disk.used ≤ c8Disk.total :=
  ⟨(usage_bounds_preserved c8World c8Snap rfl
      (fun m hm => by injection hm with h2; rw [← h2]; decide)
      (fun ps hps => by
        injection hps with h2
        rw [← h2]
        intro pd hpd
        rcases List.mem_singleton.mp hpd with rfl
        decide)).1,
   (usage_bounds_preserved c8World c8Snap rfl
      (fun m hm => by injection hm with h2; rw [← h2]; decide)
      (fun ps hps => by
        injection hps with h2
        rw [← h2]
        intro pd hpd
        rcases List.mem_singleton.mp hpd with rfl
        decide)).2 c8Disk
     (by simp [c8Snap, _get_disk_data, c8Disk, List.mem_singleton])⟩

/-! Claim C9. -/

/-- A network reading with one interface in the address map and an
empty stats map, so the interface is missing from stats. -/
def c9Net : NetRaw := { io := ⟨7, 9⟩, addrs := [("eth0", ["10.0.0.2"])], stats := [] }

/-- A cycle whose network reading is `c9Net`. -/
def c9World : World := { baseWorld with netRaw := .ok c9Net }

/-- The snapshot produced by `c9World`. -/
def c9Snap : Snapshot :=
  { cpu := _get_cpu_data okCpuRaw, gpu := _get_gpu_data [],
    memory := _get_memory_data okMemRaw, disks := _get_disk_data [],
    processes := _get_process_data [], network := _get_network_data c9Net }

/-- Claim C9: every interface entry of a produced snapshot carries the
same global bytes_sent and bytes_recv values — those of the single
net_io_counters query (source lines 95, 103-104), not per-interface
counters — the entries are exactly the address-map keys in order, and
an interface absent from the stats map is reported with is_up false
(source line 105). -/
theorem network_global_counters (w : World) (s : Snapshot)
    (h : runCycle w = Except.ok s) (n : NetRaw) (hn : w.netRaw = Except.ok n) :
    (∀ x ∈ s.network, x.bytes_sent = n.io.bytes_sent ∧
        x.bytes_recv = n.io.bytes_recv ∧
        (n.stats.lookup x.iface = none → x.is_up = false)) ∧
      s.network.map NetIfaceEntry.iface = n.addrs.map Prod.fst := by
  obtain ⟨c, g, m, d, p, n2, hc, hg, hm, hd, hp, hn2, rfl⟩ := runCycle_ok h
  rw [hn2] at hn
  injection hn with h2
  subst h2
  constructor
  · intro x hx
    simp only [_get_network_data, List.mem_map] at hx
    obtain ⟨a, ha, heq⟩ := hx
    rw [← heq]
    refine ⟨rfl, rfl, ?_⟩
    intro hlk
    simp only at hlk
    simp [hlk]
  · simp [_get_network_data, List.map_map]

/-- The single interface entry of `c9Snap`. -/
def c9Entry : NetIfaceEntry :=
  { iface := "eth0", addresses := ["10.0.0.2"], bytes_sent := 7,
    bytes_recv := 9, is_up := false }

theorem network_global_counters_witness :
    c9Snap.network.map NetIfaceEntry.iface = c9Net.addrs.map Prod.fst ∧
      c9Entry.bytes_sent = c9Net.io.bytes_sent ∧
      c9Entry.bytes_recv = c9Net.io.bytes_recv ∧ c9Entry.is_up = false :=
  ⟨(network_global_counters c9World c9Snap rfl c9Net rfl).2,
   ((network_global_counters c9World c9Snap rfl c9Net rfl).1 c9Entry
      (by decide)).1,
   ((network_global_counters c9World c9Snap rfl c9Net rfl).1 c9Entry
      (by decide)).2.1,
   ((network_global_counters c9World c9Snap rfl c9Net rfl).1 c9Entry
      (by decide)).2.2 (by decide)⟩

/-! Claim C10. -/

/-- An enumeration with a missing name, an empty name and a proper
name. -/
def c10Input : List RawProc :=
  [⟨1, none, 0, 0⟩, ⟨2, some (""), 0, 0⟩, ⟨3, some ("x"), 0, 0⟩]

/-- A cycle whose process enumeration yields `c10Input`. -/
def c10World : World := { baseWorld with procRaw := .ok c10Input }

/-- The snapshot produced by `c10World`. -/
def c10Snap : Snapshot :=
  { cpu := _get_cpu_data okCpuRaw, gpu := _get_gpu_data [],
    memory := _get_memory_data okMemRaw, disks := _get_disk_data [],
    processes := _get_process_data c10Input,
    network := _get_network_data okNetRaw }

/-- Claim C10: every entry of a produced snapshot process list has a
non-empty name, because the comprehension filter at source line 91
drops any enumerated process whose name is missing (Python None) or
empty. -/
theorem process_names_nonempty (w : World) (s : Snapshot)
    (h : runCycle w = Except.ok s) :
    ∀ e ∈ s.processes, e.name ≠ "" := by
  obtain ⟨c, g, m, d, p, n, hc, hg, hm, hd, hp, hn, rfl⟩ := runCycle_ok h
  intro e he
  simp only [_get_process_data] at he
  have h1 : e ∈ sortCpuDesc (p.filterMap toProcEntry) := List.take_subset 100 _ he
  have h2 : e ∈ p.filterMap toProcEntry := (perm_sortCpuDesc _).subset h1
  rw [List.mem_filterMap] at h2
  obtain ⟨r, _, hr⟩ := h2
  exact toProcEntry_name hr

theorem process_names_nonempty_witness :
    (⟨3, "x", 0, 0⟩ : ProcEntry).name ≠ "" :=
  process_names_nonempty c10World c10Snap rfl ⟨3, "x", 0, 0⟩ (by decide)
